import Mathlib

/-!
Shallow embedding of the session core of `src/main.go` (package `main` of
compilelife/fileshare): the admission gate, the transfer-status record, the
bounded transfer log, the client-address normalisation, and the chunked
streaming loops of the download, directory-archive and upload handlers.

Wall-clock timestamps, SSE fan-out (`broadcastStatus` mutates none of the
modelled state) and the raw socket plumbing are abstracted away; every branch
that mutates modelled state follows the Go source line by line.  I/O outcomes
(read chunks, read/write errors, `os.Stat`/`os.Create`/`os.Open` successes)
are supplied as explicit environment data in the request values.
-/

namespace FileShare

/-- Go `TransferStatus` (main.go lines 19-30).  `Progress` is a Go `float64`
computed as `transferred / size * 100`; it is embedded as an exact rational,
which agrees with the float on every value compared here (0 and 100, both
exact).  The two `time.Time` fields are omitted: they hold wall-clock
readings that no claim mentions. -/
structure TransferStatus where
  mode : String
  path : String
  size : ℤ
  transferred : ℤ
  progress : ℚ
  status : String
  error : String
  clientIP : String
deriving Repr, DecidableEq

/-- The status record built by `NewFileServer` (main.go lines 112-117); the
`Path` field holds the display base name of the target. -/
def initialStatus (mode targetName : String) : TransferStatus :=
  { mode := mode, path := targetName, size := 0, transferred := 0,
    progress := 0, status := "waiting", error := "", clientIP := "" }

/-- The mutable server state a request handler can read or write: the
`FileServer` fields `mode`, `path`, `status`, `activeClient`, `transferLog`
(main.go lines 32-46), plus `files`, the contents of the receive directory
(name ↦ byte list), which the upload handler probes with `os.Stat` and
writes with `os.Create`/`dst.Write`. -/
structure ServerState where
  mode : String
  path : String
  status : TransferStatus
  activeClient : String
  transferLog : List String
  files : List (String × List ℕ)
deriving Repr, DecidableEq

/-- `NewFileServer` (main.go lines 104-119): empty log, no active client,
status in phase `waiting`. -/
def newFileServer (mode targetPath : String) (files : List (String × List ℕ)) :
    ServerState :=
  { mode := mode, path := targetPath,
    status := initialStatus mode targetPath,
    activeClient := "", transferLog := [], files := files }

/-- `addLog` (main.go lines 193-203): append the entry at the tail, then if
the log exceeds 100 entries keep only the last 100.  The `[hh:mm:ss]`
timestamp prefix is wall-clock data and is abstracted into the entry
string. -/
def addLog (log : List String) (entry : String) : List String :=
  let l := log ++ [entry]
  if l.length > 100 then l.drop (l.length - 100) else l

/-- Helper for `getClientIP`: the prefix of the list strictly before its
LAST colon (`strings.LastIndex(ip, ":")` followed by `ip[:idx]`), or `none`
when no colon occurs (`idx == -1`). -/
def beforeLastColon : List Char → Option (List Char)
  | [] => none
  | c :: cs =>
    match beforeLastColon cs with
    | some r => some (c :: r)
    | none => if c = ':' then some [] else none

/-- `ip[:strings.LastIndex(ip, ":")]` when a colon exists, else `ip`
unchanged (main.go lines 206-209). -/
def stripPort (s : List Char) : List Char :=
  (beforeLastColon s).getD s

/-- Membership test for the cutset `"[]"` of `strings.Trim`. -/
def isBracket (c : Char) : Bool := c = '[' || c = ']'

/-- `strings.Trim(ip, "[]")` (main.go line 210): drop leading and trailing
`[` / `]` characters. -/
def trimBrackets (s : List Char) : List Char :=
  ((s.dropWhile isBracket).reverse.dropWhile isBracket).reverse

/-- `getClientIP` (main.go lines 205-211): strip the text from the last
colon onward, then trim surrounding square brackets. -/
def getClientIP (s : List Char) : List Char :=
  trimBrackets (stripPort s)

/-- `getClientIP` on `String`s, as used by the handlers on
`r.RemoteAddr`. -/
def getClientIPStr (s : String) : String :=
  String.mk (getClientIP s.data)

/-- `acquireClient` (main.go lines 213-224), returning the decision together
with the new `activeClient` value. -/
def acquireClient (active clientIP : String) : Bool × String :=
  if active ≠ "" ∧ active ≠ clientIP then (false, active)
  else if active = "" then (true, clientIP)
  else (true, active)

/-- `releaseClient` (main.go lines 226-237), returning the new
`activeClient` value together with the `shouldLog` flag. -/
def releaseClient (active clientIP : String) : String × Bool :=
  if active = clientIP then ("", true) else (active, false)

/-- The state effect of a `releaseClient` call (main.go lines 226-237): the
slot is cleared only when it holds the caller, and only then a
disconnection entry is logged. -/
def applyRelease (s : ServerState) (clientIP : String) : ServerState :=
  let r := releaseClient s.activeClient clientIP
  let s1 := { s with activeClient := r.1 }
  if r.2 then
    { s1 with transferLog := addLog s1.transferLog ("Client " ++ clientIP ++ " disconnected") }
  else s1

/-- The per-chunk status update shared by all three loops (main.go lines
416-422, 459-465, 558-564): store the running counter and, when the size is
known positive, the derived percentage. -/
def chunkStatusUpdate (st : TransferStatus) (transferred : ℤ) : TransferStatus :=
  { st with
    transferred := transferred,
    progress := if st.size > 0
      then (transferred : ℚ) / (st.size : ℚ) * 100 else st.progress }

/-- Outcome of the terminating `f.Read` of the download loop: Go
distinguishes `io.EOF` (break, then the completion block) from any other
error (set phase `error` and return). -/
inductive ReadEnd where
  | eof
  | err (msg : String)
deriving Repr, DecidableEq

/-- One `f.Read` of the single-file download loop (main.go lines 444-479):
the bytes returned, the outcome of the `w.Write` for those bytes, and
whether this read also returned `io.EOF` / an error (a `some` value ends
the loop). -/
structure ReadStep where
  data : List ℕ
  writeErr : Option String
  readEnd : Option ReadEnd
deriving Repr, DecidableEq

/-- The single-file download chunk loop (main.go lines 442-479).  Returns
the status record, the running `transferred` counter, whether the loop
returned early through an error branch, and the trace of `Transferred`
values published by the per-chunk status updates, in order. -/
def runDownloadChunks (st : TransferStatus) (transferred : ℤ) :
    List ReadStep → TransferStatus × ℤ × Bool × List ℤ
  | [] => (st, transferred, false, [])
  | c :: rest =>
    if c.data.length > 0 then
      match c.writeErr with
      | some m => ({ st with status := "error", error := m }, transferred, true, [])
      | none =>
        let t := transferred + (c.data.length : ℤ)
        let st1 := chunkStatusUpdate st t
        match c.readEnd with
        | none =>
          let r := runDownloadChunks st1 t rest
          (r.1, r.2.1, r.2.2.1, t :: r.2.2.2)
        | some ReadEnd.eof => (st1, t, false, [t])
        | some (ReadEnd.err m) =>
          ({ st1 with status := "error", error := m }, t, true, [t])
    else
      match c.readEnd with
      | none => runDownloadChunks st transferred rest
      | some ReadEnd.eof => (st, transferred, false, [])
      | some (ReadEnd.err m) =>
        ({ st with status := "error", error := m }, transferred, true, [])

/-- One `file.Read` of the upload loop (main.go lines 552-570): the bytes
returned and the error, if any, returned with them.  The Go loop breaks on
ANY non-nil error, `io.EOF` included, without distinguishing them, and the
error of `dst.Write(buf[:n])` is discarded, so neither needs a field of its
own. -/
structure UpReadStep where
  data : List ℕ
  readErr : Option String
deriving Repr, DecidableEq

/-- The upload chunk loop (main.go lines 550-570).  Returns the status
record, the running `transferred` counter, the accumulated destination-file
bytes (`dst.Write` calls), and the trace of published `Transferred`
values. -/
def runUploadChunks (st : TransferStatus) (transferred : ℤ) (dst : List ℕ) :
    List UpReadStep → TransferStatus × ℤ × List ℕ × List ℤ
  | [] => (st, transferred, dst, [])
  | c :: rest =>
    if c.data.length > 0 then
      let t := transferred + (c.data.length : ℤ)
      let st1 := chunkStatusUpdate st t
      let d1 := dst ++ c.data
      match c.readErr with
      | some _ => (st1, t, d1, [t])
      | none =>
        let r := runUploadChunks st1 t d1 rest
        (r.1, r.2.1, r.2.2.1, t :: r.2.2.2)
    else
      match c.readErr with
      | some _ => (st, transferred, dst, [])
      | none => runUploadChunks st transferred dst rest

/-- The bytes the upload loop hands to `dst.Write`: every chunk up to and
including the one delivered together with the terminating read error. -/
def processedBytes : List UpReadStep → List ℕ
  | [] => []
  | c :: rest => c.data ++ (if c.readErr.isSome then [] else processedBytes rest)

/-- One entry visited by the `filepath.Walk` of the directory-archive
branch (main.go lines 390-426): directory flag, `fi.Size()`, the outcome of
`os.Open` (a failure makes the callback return the error, which aborts the
walk), and the result of `io.Copy(writer, f)` — the byte count it returned
and its error, which the Go code DISCARDS (`n, _ := io.Copy(writer, f)`). -/
structure WalkEntry where
  isDir : Bool
  size : ℤ
  openErr : Option String
  copied : ℕ
  copyErr : Option String
deriving Repr, DecidableEq

/-- `calculateDirSize` (main.go lines 657-669): the sum of the sizes of the
non-directory entries of the walk. -/
def calculateDirSize (entries : List WalkEntry) : ℤ :=
  (entries.filter (fun e => !e.isDir)).foldl (fun acc e => acc + e.size) 0

/-- The directory-archive walk (main.go lines 390-426).  Returns the status
record, the running `transferred` counter, whether the walk was aborted
early (callback returned an error — only `os.Open` failures do), and the
trace of published `Transferred` values.  The `io.Copy` error is never
consulted, exactly as in the source. -/
def runDirWalk (st : TransferStatus) (transferred : ℤ) :
    List WalkEntry → TransferStatus × ℤ × Bool × List ℤ
  | [] => (st, transferred, false, [])
  | e :: rest =>
    if e.isDir then runDirWalk st transferred rest
    else
      match e.openErr with
      | some _ => (st, transferred, true, [])
      | none =>
        let t := transferred + (e.copied : ℤ)
        let st1 := chunkStatusUpdate st t
        let r := runDirWalk st1 t rest
        (r.1, r.2.1, r.2.2.1, t :: r.2.2.2)

/-- `fs.status.Status = "completed"; fs.status.Progress = 100` — the
completion block shared by both handlers (main.go lines 483-486 and
572-575). -/
def markCompleted (st : TransferStatus) : TransferStatus :=
  { st with status := "completed", progress := 100 }

/-- `files.find?` over the receive directory: the model of `os.Stat` on the
destination path of an upload. -/
def lookupFile (files : List (String × List ℕ)) (name : String) :
    Option (List ℕ) :=
  (files.find? (fun p => p.1 = name)).map (fun p => p.2)

/-- Writing a destination file: any stale entry of the same name is replaced
with the given contents (`os.Create` truncates, the loop's `dst.Write`
calls append). -/
def setFile (files : List (String × List ℕ)) (name : String)
    (content : List ℕ) : List (String × List ℕ) :=
  files.filter (fun p => ¬ p.1 = name) ++ [(name, content)]

/-- Response bodies the handlers produce, kept structured: `errText` models
an `http.Error` plain-text body, `conflictJSON` the structured
`file_exists` body of the upload conflict branch (main.go lines 523-527),
`successJSON` the upload success body, `cancelledJSON` the cancel body. -/
inductive RespBody where
  | none
  | errText (msg : String)
  | conflictJSON (filename : String) (savePath : String)
  | successJSON (savePath : String) (size : ℤ)
  | cancelledJSON
deriving Repr, DecidableEq

/-- The download target behind `fs.path`, as `os.Stat` classifies it:
a regular file with its contents, or a directory given by the entry list
its walks visit (in walk order, root excluded). -/
inductive Target where
  | file (content : List ℕ)
  | dir (entries : List WalkEntry)
deriving Repr, DecidableEq

/-- A `GET /api/download` request together with the environment data its
handler consumes: the peer address, the `Range` header, whether `os.Stat`
on the target succeeds, the target itself, whether `os.Open` succeeds on
the non-range file path, and the outcomes of the chunk reads/writes. -/
structure DownloadRequest where
  remoteAddr : String
  rangeHeader : String
  statOk : Bool
  target : Target
  openOk : Bool
  steps : List ReadStep
deriving Repr, DecidableEq

/-- The observable outcome of `handleDownload`: the new server state, the
HTTP status code (200 stands for any response whose headers were already
written when the body streaming began), whether `http.ServeContent`
handled the request (Range branch, main.go lines 432-433), whether the
deferred `zipWriter.Close()` finalised an archive, and whether the
directory walk was aborted by a callback error. -/
structure DownloadResult where
  state : ServerState
  httpCode : ℕ
  usedRangeServe : Bool
  archiveFinished : Bool
  walkAborted : Bool
deriving Repr, DecidableEq

/-- `handleDownload` (main.go lines 347-491), branch by branch: mode check;
admission; connect log; `os.Stat`; marking the status `transferring` with
the computed size; then either the directory-archive walk, the
`ServeContent` range branch, or the manual chunk loop; finally the
completion block, the completion log, and the deferred `releaseClient`.
`http.ServeContent` holds no reference to the server state, so the range
branch itself touches nothing; the surrounding handler still runs. -/
def handleDownload (s : ServerState) (r : DownloadRequest) : DownloadResult :=
  if s.mode ≠ "send" then ⟨s, 400, false, false, false⟩
  else
    let clientIP := getClientIPStr r.remoteAddr
    let a := acquireClient s.activeClient clientIP
    if a.1 = false then ⟨s, 503, false, false, false⟩
    else
      let lg1 := addLog s.transferLog ("Client " ++ clientIP ++ " connected")
      let s1 := { s with
        activeClient := a.2,
        transferLog := lg1 }
      if r.statOk = false then ⟨applyRelease s1 clientIP, 404, false, false, false⟩
      else
        let size : ℤ := match r.target with
          | Target.file c => (c.length : ℤ)
          | Target.dir es => calculateDirSize es
        let s2 := { s1 with status :=
          { s1.status with
            status := "transferring",
            clientIP := clientIP,
            size := size } }
        let s3 := { s2 with transferLog := addLog s2.transferLog ("Started download from " ++ clientIP) }
        match r.target with
        | Target.dir es =>
          let w := runDirWalk s3.status 0 es
          let s4 := { s3 with status := markCompleted w.1 }
          let s5 := { s4 with transferLog := addLog s4.transferLog ("Download completed for " ++ clientIP) }
          ⟨applyRelease s5 clientIP, 200, false, true, w.2.2.1⟩
        | Target.file _ =>
          if r.rangeHeader ≠ "" then
            let s4 := { s3 with status := markCompleted s3.status }
            let s5 := { s4 with transferLog := addLog s4.transferLog ("Download completed for " ++ clientIP) }
            ⟨applyRelease s5 clientIP, 200, true, false, false⟩
          else if r.openOk = false then
            ⟨applyRelease s3 clientIP, 500, false, false, false⟩
          else
            let l := runDownloadChunks s3.status 0 r.steps
            if l.2.2.1 then
              ⟨applyRelease { s3 with status := l.1 } clientIP, 200, false, false, false⟩
            else
              let s4 := { s3 with status := markCompleted l.1 }
              let s5 := { s4 with transferLog := addLog s4.transferLog ("Download completed for " ++ clientIP) }
              ⟨applyRelease s5 clientIP, 200, false, false, false⟩

/-- A `POST /api/upload` request together with the environment data its
handler consumes: method, peer address, whether `r.FormFile("file")`
succeeds, the declared filename and size from the multipart header, the
total byte length of the multipart payload on the wire (all of it consumed
by `r.ParseMultipartForm(10 << 30)`), the chunk reads of the form file, and
the outcome of `os.Create`. -/
structure UploadRequest where
  method : String
  remoteAddr : String
  formFileOk : Bool
  filename : String
  declaredSize : ℤ
  bodyLen : ℕ
  reads : List UpReadStep
  createOk : Bool
  createErrMsg : String
deriving Repr, DecidableEq

/-- The observable outcome of `handleUpload`: the new server state, the
HTTP status code, the response body, and how many bytes of the peer's
payload were consumed before the response was produced. -/
structure UploadResult where
  state : ServerState
  httpCode : ℕ
  body : RespBody
  bytesReadFromPeer : ℕ
deriving Repr, DecidableEq

/-- `handleUpload` (main.go lines 493-583), branch by branch: mode and
method checks; admission; `ParseMultipartForm` (which consumes the whole
multipart payload); `FormFile`; the existing-file conflict check; marking
the status `transferring`; `os.Create`; the chunk-copy loop; the
completion block and log; the success body; and the deferred
`releaseClient` on every path past admission. -/
def handleUpload (s : ServerState) (r : UploadRequest) : UploadResult :=
  if s.mode ≠ "recv" then
    ⟨s, 400, RespBody.errText "Server is not in receive mode", 0⟩
  else if r.method ≠ "POST" then
    ⟨s, 405, RespBody.errText "Method not allowed", 0⟩
  else
    let clientIP := getClientIPStr r.remoteAddr
    let a := acquireClient s.activeClient clientIP
    if a.1 = false then
      ⟨s, 503, RespBody.errText "Another client is already connected", 0⟩
    else
      let s1 := { s with activeClient := a.2 }
      let bytesRead := r.bodyLen
      if r.formFileOk = false then
        ⟨applyRelease s1 clientIP, 400, RespBody.errText "Failed to get file", bytesRead⟩
      else
        let savePath := s1.path ++ "/" ++ r.filename
        if (lookupFile s1.files r.filename).isSome then
          ⟨applyRelease s1 clientIP, 409,
            RespBody.conflictJSON r.filename savePath, bytesRead⟩
        else
          let s2 := { s1 with status :=
            { s1.status with
              status := "transferring",
              clientIP := clientIP,
              size := r.declaredSize } }
          let s3 := { s2 with transferLog := addLog s2.transferLog ("Started upload from " ++ clientIP ++ ": " ++ r.filename) }
          if r.createOk = false then
            let s4 := { s3 with status :=
              { s3.status with status := "error", error := r.createErrMsg } }
            ⟨applyRelease s4 clientIP, 500,
              RespBody.errText "Failed to create file", bytesRead⟩
          else
            let s4 := { s3 with files := setFile s3.files r.filename [] }
            let u := runUploadChunks s4.status 0 [] r.reads
            let s5 := { s4 with
              files := setFile s4.files r.filename u.2.2.1,
              status := markCompleted u.1 }
            let s6 := { s5 with transferLog := addLog s5.transferLog ("Upload completed from " ++ clientIP ++ ": " ++ r.filename) }
            ⟨applyRelease s6 clientIP, 200,
              RespBody.successJSON savePath u.2.1, bytesRead⟩

/-- The observable outcome of `handleCancel`. -/
structure CancelResult where
  state : ServerState
  httpCode : ℕ
  body : RespBody
deriving Repr, DecidableEq

/-- `handleCancel` (main.go lines 585-604): method check; `releaseClient`
for the caller's address (which clears the slot only when the caller holds
it); forcing the phase to `cancelled`; the cancellation log; and a 200
response. -/
def handleCancel (s : ServerState) (method remoteAddr : String) : CancelResult :=
  if method ≠ "POST" then ⟨s, 405, RespBody.errText "Method not allowed"⟩
  else
    let clientIP := getClientIPStr remoteAddr
    let s1 := applyRelease s clientIP
    let s2 := { s1 with status := { s1.status with status := "cancelled" } }
    let s3 := { s2 with transferLog := addLog s2.transferLog ("Transfer cancelled by " ++ clientIP) }
    ⟨s3, 200, RespBody.cancelledJSON⟩

/-- One state-mutating request the server can process. -/
inductive Op where
  | download (r : DownloadRequest)
  | upload (r : UploadRequest)
  | cancel (method : String) (remoteAddr : String)

/-- The state transition of one request, responses discarded. -/
def step (s : ServerState) : Op → ServerState
  | Op.download r => (handleDownload s r).state
  | Op.upload r => (handleUpload s r).state
  | Op.cancel m a => (handleCancel s m a).state

/-- Running a sequence of requests from a state. -/
def runOps (s : ServerState) (ops : List Op) : ServerState :=
  ops.foldl step s

end FileShare

namespace FileShare

/-- C1 Admission Gate acquisition: `acquireClient` returns true and records
the peer as holder when no holder exists; returns true leaving the holder
unchanged when the existing holder already equals the peer; and returns
false without mutating the holder when a different holder is active. -/
theorem c1_admission_acquire (active p : String) :
    (active = "" → acquireClient active p = (true, p))
    ∧ (active = p → acquireClient active p = (true, active))
    ∧ (active ≠ "" → active ≠ p → acquireClient active p = (false, active)) := by
  refine ⟨fun h => ?_, fun h => ?_, fun h1 h2 => ?_⟩
  · subst h
    simp [acquireClient]
  · subst h
    by_cases h0 : active = ""
    · subst h0; simp [acquireClient]
    · simp [acquireClient, h0]
  · simp [acquireClient, h1, h2]

/-- C1 witness: the three cases of the contract at concrete peers. -/
theorem c1_admission_acquire_inst :
    acquireClient "" "10.0.0.7" = (true, "10.0.0.7")
    ∧ acquireClient "10.0.0.7" "10.0.0.7" = (true, "10.0.0.7")
    ∧ acquireClient "10.0.0.7" "10.0.0.8" = (false, "10.0.0.7") :=
  ⟨(c1_admission_acquire "" "10.0.0.7").1 rfl,
   (c1_admission_acquire "10.0.0.7" "10.0.0.7").2.1 rfl,
   (c1_admission_acquire "10.0.0.7" "10.0.0.8").2.2 (by decide) (by decide)⟩

/-- C6 Transfer Log bound: an append keeps the log at or under 100 entries;
below the bound it is a plain tail append, and at exactly 100 entries the
append evicts the head, so the former second entry becomes the oldest and
the relative order of the retained entries is preserved. -/
theorem c6_log_bound (log : List String) (e : String) (h : log.length ≤ 100) :
    (addLog log e).length ≤ 100
    ∧ (log.length < 100 → addLog log e = log ++ [e])
    ∧ (log.length = 100 → addLog log e = log.tail ++ [e]) := by
  refine ⟨?_, fun hlt => ?_, fun heq => ?_⟩
  · unfold addLog
    by_cases hgt : (log ++ [e]).length > 100
    · simp only [if_pos hgt, List.length_drop]
      omega
    · simp only [if_neg hgt]
      omega
  · unfold addLog
    have : ¬ (log ++ [e]).length > 100 := by
      simp only [List.length_append, List.length_cons, List.length_nil]
      omega
    rw [if_neg this]
  · unfold addLog
    have hgt : (log ++ [e]).length > 100 := by
      simp only [List.length_append, List.length_cons, List.length_nil]
      omega
    simp only [if_pos hgt, List.length_append, List.length_cons, List.length_nil, heq]
    have h1 : (log ++ [e]).drop 1 = log.drop 1 ++ [e] := by
      rcases log with _ | ⟨a, l⟩
      · simp at heq
      · simp
    have h2 : log.tail = log.drop 1 := by
      rcases log with _ | ⟨a, l⟩ <;> simp
    rw [h2, ← h1]
    norm_num

/-- C6 witness: appending to a log holding exactly 100 entries keeps it at
100 and drops the head. -/
theorem c6_log_bound_inst :
    (addLog (List.replicate 100 "a") "b").length ≤ 100
    ∧ (addLog (List.replicate 100 "a") "b")
        = (List.replicate 100 "a").tail ++ ["b"] := by
  have h := c6_log_bound (List.replicate 100 "a") "b" (by simp)
  exact ⟨h.1, h.2.2 (by simp)⟩

/-- `beforeLastColon` finds no colon in a colon-free list. -/
theorem beforeLastColon_eq_none {v : List Char} (h : ':' ∉ v) :
    beforeLastColon v = none := by
  induction v with
  | nil => rfl
  | cons c cs ih =>
    have hc : ¬ c = ':' := fun e => h (e ▸ List.mem_cons_self c cs)
    have hcs : ':' ∉ cs := fun m => h (List.mem_cons_of_mem c m)
    simp [beforeLastColon, ih hcs, hc]

/-- `beforeLastColon` returns the prefix before the last colon. -/
theorem beforeLastColon_append {v : List Char} (u : List Char) (h : ':' ∉ v) :
    beforeLastColon (u ++ ':' :: v) = some u := by
  induction u with
  | nil => simp [beforeLastColon, beforeLastColon_eq_none h]
  | cons a u ih => simp [beforeLastColon, ih]

/-- C10 Peer identity granularity: `getClientIP` drops the text after the
last colon (the `:port` suffix) and trims surrounding square brackets, as
on the bracketed IPv6 example; consequently two connections whose addresses
normalise to the same host IP are both admitted: the second `acquireClient`
call succeeds with the holder unchanged (idempotent re-entry). -/
theorem c10_peer_identity :
    (∀ u v : List Char, ':' ∉ v →
      getClientIP (u ++ ':' :: v) = trimBrackets u)
    ∧ getClientIP ("[::1]:12345".data) = "::1".data
    ∧ (∀ a b : String, getClientIPStr a = getClientIPStr b →
        acquireClient "" (getClientIPStr a) = (true, getClientIPStr a)
        ∧ acquireClient (getClientIPStr a) (getClientIPStr b)
            = (true, getClientIPStr a)) := by
  refine ⟨fun u v h => ?_, by decide, fun a b hab => ⟨?_, ?_⟩⟩
  · unfold getClientIP stripPort
    rw [beforeLastColon_append u h]
    rfl
  · simp [acquireClient]
  · rw [← hab]
    by_cases h0 : getClientIPStr a = ""
    · rw [h0]; simp [acquireClient]
    · simp [acquireClient, h0]

/-- C10 witness: the general prefix law applied at a concrete IPv4-style
address with port. -/
theorem c10_peer_identity_inst :
    getClientIP (['1', '.', '2'] ++ ':' :: ['9', '9'])
      = trimBrackets ['1', '.', '2'] :=
  c10_peer_identity.1 ['1', '.', '2'] ['9', '9'] (by decide)

/-- The `Transferred` values published by the download chunk loop never
decrease below the counter the loop starts from. -/
theorem downloadChunks_trace_chain (steps : List ReadStep) :
    ∀ (st : TransferStatus) (t : ℤ),
      List.Chain' (· ≤ ·) (t :: (runDownloadChunks st t steps).2.2.2) := by
  induction steps with
  | nil => intro st t; simp [runDownloadChunks]
  | cons c rest ih =>
    intro st t
    by_cases hd : c.data.length > 0
    · rcases hw : c.writeErr with _ | m
      · rcases hr : c.readEnd with _ | e
        · simp only [runDownloadChunks, if_pos hd, hw, hr]
          rw [List.chain'_cons]
          exact ⟨by omega, ih _ _⟩
        · rcases e with _ | m
          · simp only [runDownloadChunks, if_pos hd, hw, hr]
            simp only [List.chain'_cons, List.chain'_singleton, and_true]
            omega
          · simp only [runDownloadChunks, if_pos hd, hw, hr]
            simp only [List.chain'_cons, List.chain'_singleton, and_true]
            omega
      · simp [runDownloadChunks, if_pos hd, hw]
    · rcases hr : c.readEnd with _ | e
      · simp only [runDownloadChunks, if_neg hd, hr]
        exact ih _ _
      · rcases e with _ | m
        · simp [runDownloadChunks, if_neg hd, hr]
        · simp [runDownloadChunks, if_neg hd, hr]

/-- The `Transferred` values published by the upload chunk loop never
decrease below the counter the loop starts from. -/
theorem uploadChunks_trace_chain (cs : List UpReadStep) :
    ∀ (st : TransferStatus) (t : ℤ) (d : List ℕ),
      List.Chain' (· ≤ ·) (t :: (runUploadChunks st t d cs).2.2.2) := by
  induction cs with
  | nil => intro st t d; simp [runUploadChunks]
  | cons c rest ih =>
    intro st t d
    by_cases hd : c.data.length > 0
    · rcases hr : c.readErr with _ | m
      · simp only [runUploadChunks, if_pos hd, hr]
        rw [List.chain'_cons]
        exact ⟨by omega, ih _ _ _⟩
      · simp only [runUploadChunks, if_pos hd, hr]
        simp only [List.chain'_cons, List.chain'_singleton, and_true]
        omega
    · rcases hr : c.readErr with _ | m
      · simp only [runUploadChunks, if_neg hd, hr]
        exact ih _ _ _
      · simp [runUploadChunks, if_neg hd, hr]

/-- The `Transferred` values published by the directory-archive walk never
decrease below the counter the walk starts from. -/
theorem dirWalk_trace_chain (es : List WalkEntry) :
    ∀ (st : TransferStatus) (t : ℤ),
      List.Chain' (· ≤ ·) (t :: (runDirWalk st t es).2.2.2) := by
  induction es with
  | nil => intro st t; simp [runDirWalk]
  | cons e rest ih =>
    intro st t
    by_cases hd : e.isDir = true
    · simp only [runDirWalk, if_pos hd]
      exact ih _ _
    · rcases ho : e.openErr with _ | m
      · simp only [runDirWalk, if_neg hd, ho]
        rw [List.chain'_cons]
        exact ⟨by omega, ih _ _⟩
      · simp [runDirWalk, if_neg hd, ho]

/-- C7 Monotone progress: in each of the three chunk loops (single-file
download, upload, directory-archive walk), started at counter 0 as the
handlers do, the sequence of per-chunk `Transferred` status updates is
monotonically non-decreasing — no chunk step lowers the counter. -/
theorem c7_transferred_monotone :
    (∀ (st : TransferStatus) (steps : List ReadStep),
      List.Chain' (· ≤ ·) (0 :: (runDownloadChunks st 0 steps).2.2.2))
    ∧ (∀ (st : TransferStatus) (cs : List UpReadStep),
      List.Chain' (· ≤ ·) (0 :: (runUploadChunks st 0 [] cs).2.2.2))
    ∧ (∀ (st : TransferStatus) (es : List WalkEntry),
      List.Chain' (· ≤ ·) (0 :: (runDirWalk st 0 es).2.2.2)) :=
  ⟨fun st steps => downloadChunks_trace_chain steps st 0,
   fun st cs => uploadChunks_trace_chain cs st 0 [],
   fun st es => dirWalk_trace_chain es st 0⟩

/-- `applyRelease` touches only the active slot and the log. -/
theorem applyRelease_status (s : ServerState) (ip : String) :
    (applyRelease s ip).status = s.status := by
  unfold applyRelease
  dsimp only
  split <;> rfl

/-- `applyRelease` leaves the receive-directory contents alone. -/
theorem applyRelease_files (s : ServerState) (ip : String) :
    (applyRelease s ip).files = s.files := by
  unfold applyRelease
  dsimp only
  split <;> rfl

/-- The download chunk loop changes the `error` field only on its early
error returns, and on those it sets the phase to `error`. -/
theorem downloadChunks_error_cases (steps : List ReadStep) :
    ∀ (st : TransferStatus) (t : ℤ),
      ((runDownloadChunks st t steps).2.2.1 = false →
        (runDownloadChunks st t steps).1.error = st.error)
      ∧ ((runDownloadChunks st t steps).2.2.1 = true →
        (runDownloadChunks st t steps).1.status = "error") := by
  induction steps with
  | nil => intro st t; simp [runDownloadChunks]
  | cons c rest ih =>
    intro st t
    by_cases hd : c.data.length > 0
    · rcases hw : c.writeErr with _ | m
      · rcases hr : c.readEnd with _ | e
        · simp only [runDownloadChunks, if_pos hd, hw, hr]
          exact ih _ _
        · rcases e with _ | m
          · simp [runDownloadChunks, if_pos hd, hw, hr, chunkStatusUpdate]
          · simp [runDownloadChunks, if_pos hd, hw, hr]
      · simp [runDownloadChunks, if_pos hd, hw]
    · rcases hr : c.readEnd with _ | e
      · simp only [runDownloadChunks, if_neg hd, hr]
        exact ih _ _
      · rcases e with _ | m
        · simp [runDownloadChunks, if_neg hd, hr]
        · simp [runDownloadChunks, if_neg hd, hr]

/-- The upload chunk loop never writes the `error` field. -/
theorem uploadChunks_error (cs : List UpReadStep) :
    ∀ (st : TransferStatus) (t : ℤ) (d : List ℕ),
      (runUploadChunks st t d cs).1.error = st.error := by
  induction cs with
  | nil => intro st t d; simp [runUploadChunks]
  | cons c rest ih =>
    intro st t d
    by_cases hd : c.data.length > 0
    · rcases hr : c.readErr with _ | m
      · simp only [runUploadChunks, if_pos hd, hr]
        rw [ih]
        simp [chunkStatusUpdate]
      · simp [runUploadChunks, if_pos hd, hr, chunkStatusUpdate]
    · rcases hr : c.readErr with _ | m
      · simp only [runUploadChunks, if_neg hd, hr]
        exact ih _ _ _
      · simp [runUploadChunks, if_neg hd, hr]

/-- The directory-archive walk never writes the `error` field. -/
theorem dirWalk_error (es : List WalkEntry) :
    ∀ (st : TransferStatus) (t : ℤ),
      (runDirWalk st t es).1.error = st.error := by
  induction es with
  | nil => intro st t; simp [runDirWalk]
  | cons e rest ih =>
    intro st t
    by_cases hd : e.isDir = true
    · simp only [runDirWalk, if_pos hd]
      exact ih _ _
    · rcases ho : e.openErr with _ | m
      · simp only [runDirWalk, if_neg hd, ho]
        rw [ih]
        simp [chunkStatusUpdate]
      · simp [runDirWalk, if_neg hd, ho]

/-- Any single download request either leaves `lastError` unchanged or ends
in phase `error`. -/
theorem handleDownload_error_cases (s : ServerState) (r : DownloadRequest) :
    (handleDownload s r).state.status.error = s.status.error
    ∨ (handleDownload s r).state.status.status = "error" := by
  unfold handleDownload
  dsimp only
  split
  · left; rfl
  · split
    · left; rfl
    · split
      · left
        rw [applyRelease_status]
      · split
        · left
          rw [applyRelease_status]
          dsimp only [markCompleted]
          rw [dirWalk_error]
        · split
          · left
            rw [applyRelease_status]
            simp [markCompleted]
          · split
            · left
              rw [applyRelease_status]
            · split
              · right
                rw [applyRelease_status]
                dsimp only
                exact (downloadChunks_error_cases r.steps _ 0).2 (by assumption)
              · left
                rw [applyRelease_status]
                dsimp only [markCompleted]
                exact (downloadChunks_error_cases r.steps _ 0).1
                  (by simp_all)

/-- Any single upload request either leaves `lastError` unchanged or ends
in phase `error`. -/
theorem handleUpload_error_cases (s : ServerState) (r : UploadRequest) :
    (handleUpload s r).state.status.error = s.status.error
    ∨ (handleUpload s r).state.status.status = "error" := by
  unfold handleUpload
  dsimp only
  split
  · left; rfl
  · split
    · left; rfl
    · split
      · left; rfl
      · split
        · left
          rw [applyRelease_status]
        · split
          · left
            rw [applyRelease_status]
          · split
            · right
              rw [applyRelease_status]
            · left
              rw [applyRelease_status]
              dsimp only [markCompleted]
              rw [uploadChunks_error]

/-- A cancel request never touches `lastError`. -/
theorem handleCancel_error (s : ServerState) (m a : String) :
    (handleCancel s m a).state.status.error = s.status.error := by
  unfold handleCancel
  dsimp only
  split
  · rfl
  · rw [applyRelease_status]

/-- C9 amended: `lastError` is only ever written by a step that sets the
phase to `error` in the same step — every handler invocation that changes
the `lastError` field ends in phase `error`.  (It is never cleared, so a
later cancel can leave a stale non-empty `lastError` with phase
`cancelled`; see the counterexample.) -/
theorem c9_last_error_amended (s : ServerState) (op : Op)
    (h : (step s op).status.error ≠ s.status.error) :
    (step s op).status.status = "error" := by
  cases op with
  | download r =>
    rcases handleDownload_error_cases s r with he | hs
    · exact absurd he h
    · exact hs
  | upload r =>
    rcases handleUpload_error_cases s r with he | hs
    · exact absurd he h
    · exact hs
  | cancel m a =>
    exact absurd (handleCancel_error s m a) h

/-- A fresh send-mode session over the file `demo.txt`. -/
def sendState0 : ServerState := newFileServer "send" "demo.txt" []

/-- A download whose first chunk write fails with a broken pipe. -/
def dreqWriteErr : DownloadRequest :=
  { remoteAddr := "10.0.0.5:40000", rangeHeader := "", statOk := true,
    target := Target.file [7, 7, 7], openOk := true,
    steps := [{ data := [7], writeErr := some "broken pipe", readEnd := none }] }

/-- C9 counterexample: an I/O error followed by a cancel leaves the session
with a non-empty `lastError` while the phase is `cancelled`, not `error` —
the claimed invariant fails on this reachable state. -/
theorem c9_last_error_cex :
    (runOps sendState0
        [Op.download dreqWriteErr, Op.cancel "POST" "10.0.0.6:50000"]).status.error
      = "broken pipe"
    ∧ (runOps sendState0
        [Op.download dreqWriteErr, Op.cancel "POST" "10.0.0.6:50000"]).status.status
      = "cancelled" := by
  constructor <;> rfl

/-- C9 witness: a step that does change `lastError` (the failing download)
does end in phase `error`. -/
theorem c9_last_error_amended_inst :
    (step sendState0 (Op.download dreqWriteErr)).status.status = "error" :=
  c9_last_error_amended sendState0 (Op.download dreqWriteErr) (by decide)

/-- The destination bytes accumulated by the upload loop are exactly the
starting bytes followed by every chunk handed to `dst.Write`. -/
theorem uploadChunks_dst (cs : List UpReadStep) :
    ∀ (st : TransferStatus) (t : ℤ) (d : List ℕ),
      (runUploadChunks st t d cs).2.2.1 = d ++ processedBytes cs := by
  induction cs with
  | nil => intro st t d; simp [runUploadChunks, processedBytes]
  | cons c rest ih =>
    intro st t d
    by_cases hd : c.data.length > 0
    · rcases hr : c.readErr with _ | m
      · simp only [runUploadChunks, if_pos hd, hr, processedBytes]
        rw [ih]
        simp
      · simp [runUploadChunks, if_pos hd, hr, processedBytes]
    · have hdata : c.data = [] := by
        cases hcd : c.data with
        | nil => rfl
        | cons a l => rw [hcd] at hd; simp at hd
      rcases hr : c.readErr with _ | m
      · simp only [runUploadChunks, if_neg hd, hr, processedBytes]
        rw [ih]
        simp [hdata]
      · simp [runUploadChunks, if_neg hd, hr, processedBytes, hdata]

/-- Looking up a file just written returns the written contents. -/
theorem lookupFile_setFile (files : List (String × List ℕ)) (name : String)
    (c : List ℕ) : lookupFile (setFile files name c) name = some c := by
  unfold lookupFile setFile
  induction files with
  | nil => simp [List.find?]
  | cons p ps _ =>
    by_cases hp : p.1 = name
    · simp [List.filter, hp]
    · simp [List.filter, hp, List.find?]

/-- C2 amended: when an upload's chunk-copy loop ends in a read error after
the destination file was created, the loop stops and the partial content
already written (every chunk delivered up to and including the erroring
read) is left in place with no rollback — but the transfer phase is then
set to `completed` with progress forced to 100, not to `error`: the loop
breaks on any non-nil read error, `io.EOF` or not, and falls through to
the completion block; destination write errors are discarded outright. -/
theorem c2_upload_error_amended (s : ServerState) (r : UploadRequest)
    (hm : s.mode = "recv") (hp : r.method = "POST")
    (ha : (acquireClient s.activeClient (getClientIPStr r.remoteAddr)).1 = true)
    (hf : r.formFileOk = true)
    (hc : (lookupFile s.files r.filename).isSome = false)
    (hcr : r.createOk = true) :
    (handleUpload s r).state.status.status = "completed"
    ∧ (handleUpload s r).state.status.progress = 100
    ∧ lookupFile (handleUpload s r).state.files r.filename
        = some (processedBytes r.reads)
    ∧ (handleUpload s r).httpCode = 200 := by
  unfold handleUpload
  rw [if_neg (by simp [hm]), if_neg (by simp [hp]),
    if_neg (by simp [ha]), if_neg (by simp [hf]),
    if_neg (by simp [hc] : ¬ (lookupFile s.files r.filename).isSome = true),
    if_neg (by simp [hcr])]
  refine ⟨?_, ?_, ?_, rfl⟩
  · rw [applyRelease_status]
    rfl
  · rw [applyRelease_status]
    rfl
  · rw [applyRelease_files]
    try dsimp only
    rw [lookupFile_setFile, uploadChunks_dst]
    simp

/-- A fresh recv-mode session with an empty receive directory. -/
def recvState0 : ServerState := newFileServer "recv" "inbox" []

/-- An upload whose second read fails with a connection reset after the
first chunk was written. -/
def ureqReadErr : UploadRequest :=
  { method := "POST", remoteAddr := "10.0.0.5:40001", formFileOk := true,
    filename := "payload.bin", declaredSize := 4, bodyLen := 4,
    reads := [{ data := [1, 2], readErr := none },
              { data := [3], readErr := some "connection reset" }],
    createOk := true, createErrMsg := "" }

/-- C2 counterexample: an upload whose chunk loop hits a mid-transfer read
error ends with phase `completed`, not the claimed `error`. -/
theorem c2_upload_read_error_cex :
    (handleUpload recvState0 ureqReadErr).state.status.status = "completed"
    ∧ ¬ (handleUpload recvState0 ureqReadErr).state.status.status = "error" := by
  exact ⟨rfl, by decide⟩

/-- C2 witness: the amended statement at the concrete failing upload — the
partial bytes `[1, 2, 3]` persist and the phase reads `completed`. -/
theorem c2_upload_error_amended_inst :
    (handleUpload recvState0 ureqReadErr).state.status.status = "completed"
    ∧ (handleUpload recvState0 ureqReadErr).state.status.progress = 100
    ∧ lookupFile (handleUpload recvState0 ureqReadErr).state.files
        ureqReadErr.filename = some (processedBytes ureqReadErr.reads)
    ∧ (handleUpload recvState0 ureqReadErr).httpCode = 200 :=
  c2_upload_error_amended recvState0 ureqReadErr rfl rfl (by decide) rfl
    (by decide) rfl

/-- When no entry's `os.Open` fails, the walk callbacks all return nil and
the walk runs to the end. -/
theorem dirWalk_no_abort (es : List WalkEntry) :
    ∀ (st : TransferStatus) (t : ℤ),
      (∀ e ∈ es, e.openErr = Option.none) →
      (runDirWalk st t es).2.2.1 = false := by
  induction es with
  | nil => intro st t _; simp [runDirWalk]
  | cons e rest ih =>
    intro st t h
    have he : e.openErr = Option.none := h e (List.mem_cons_self e rest)
    have hrest : ∀ x ∈ rest, x.openErr = Option.none :=
      fun x hx => h x (List.mem_cons_of_mem e hx)
    by_cases hd : e.isDir = true
    · simp only [runDirWalk, if_pos hd]
      exact ih st t hrest
    · simp only [runDirWalk, if_neg hd, he]
      exact ih _ _ hrest

/-- C3 amended: a mid-stream write failure while copying file contents into
the streamed archive is discarded (`n, _ := io.Copy(writer, f)`): the walk
is NOT aborted and continues with the remaining entries, the phase
afterwards becomes `completed` with progress forced to 100 rather than
`error`, and the archive IS finished by the deferred `zipWriter.Close()`.
Only an `os.Open` failure aborts the walk, and even then the handler falls
through to the same completion block. -/
theorem c3_dir_copy_error_amended (s : ServerState) (r : DownloadRequest)
    (es : List WalkEntry)
    (hm : s.mode = "send")
    (ha : (acquireClient s.activeClient (getClientIPStr r.remoteAddr)).1 = true)
    (hs : r.statOk = true)
    (ht : r.target = Target.dir es)
    (ho : ∀ e ∈ es, e.openErr = Option.none) :
    (handleDownload s r).walkAborted = false
    ∧ (handleDownload s r).state.status.status = "completed"
    ∧ (handleDownload s r).state.status.progress = 100
    ∧ (handleDownload s r).archiveFinished = true := by
  unfold handleDownload
  rw [if_neg (by simp [hm]), if_neg (by simp [ha]), if_neg (by simp [hs]), ht]
  refine ⟨?_, ?_, ?_, rfl⟩
  · exact dirWalk_no_abort es _ 0 ho
  · rw [applyRelease_status]
    rfl
  · rw [applyRelease_status]
    rfl

/-- A directory download in which the first file's `io.Copy` into the
archive fails with a broken pipe and a second file follows. -/
def dreqDirCopyErr : DownloadRequest :=
  { remoteAddr := "10.0.0.5:40003", rangeHeader := "", statOk := true,
    target := Target.dir
      [{ isDir := false, size := 4, openErr := Option.none, copied := 2,
         copyErr := some "broken pipe" },
       { isDir := false, size := 3, openErr := Option.none, copied := 3,
         copyErr := Option.none }],
    openOk := true, steps := [] }

/-- C3 counterexample: a directory download whose first archive copy fails
mid-stream still walks the second entry (transferred reaches 5), is never
aborted, finishes the archive, and ends in phase `completed`, all contrary
to the claim. -/
theorem c3_dir_copy_error_cex :
    (handleDownload sendState0 dreqDirCopyErr).state.status.status = "completed"
    ∧ ¬ (handleDownload sendState0 dreqDirCopyErr).state.status.status = "error"
    ∧ (handleDownload sendState0 dreqDirCopyErr).walkAborted = false
    ∧ (handleDownload sendState0 dreqDirCopyErr).archiveFinished = true
    ∧ (handleDownload sendState0 dreqDirCopyErr).state.status.transferred = 5 := by
  refine ⟨rfl, by decide, rfl, rfl, rfl⟩

/-- C3 witness: the amended statement at the concrete failing directory
download. -/
theorem c3_dir_copy_error_amended_inst :
    (handleDownload sendState0 dreqDirCopyErr).walkAborted = false
    ∧ (handleDownload sendState0 dreqDirCopyErr).state.status.status = "completed"
    ∧ (handleDownload sendState0 dreqDirCopyErr).state.status.progress = 100
    ∧ (handleDownload sendState0 dreqDirCopyErr).archiveFinished = true :=
  c3_dir_copy_error_amended sendState0 dreqDirCopyErr _ rfl (by decide) rfl rfl
    (by decide)

/-- C4 amended: when the destination filename already exists, the upload
fails with the distinct 409 conflict response carrying the structured
detail (filename and computed path), no destination file is created, the
existing file's bytes and the whole Transfer Status record are unchanged —
but the peer's multipart payload has already been consumed in full by
`r.ParseMultipartForm(10 << 30)`, which runs before the conflict check, so
`bytesReadFromPeer` equals the payload length rather than 0. -/
theorem c4_conflict_amended (s : ServerState) (r : UploadRequest)
    (hm : s.mode = "recv") (hp : r.method = "POST")
    (ha : (acquireClient s.activeClient (getClientIPStr r.remoteAddr)).1 = true)
    (hf : r.formFileOk = true)
    (hc : (lookupFile s.files r.filename).isSome = true) :
    (handleUpload s r).httpCode = 409
    ∧ (handleUpload s r).body
        = RespBody.conflictJSON r.filename (s.path ++ "/" ++ r.filename)
    ∧ (handleUpload s r).state.files = s.files
    ∧ (handleUpload s r).state.status = s.status
    ∧ (handleUpload s r).bytesReadFromPeer = r.bodyLen := by
  unfold handleUpload
  rw [if_neg (by simp [hm]), if_neg (by simp [hp]),
    if_neg (by simp [ha]), if_neg (by simp [hf]), if_pos hc]
  refine ⟨rfl, rfl, ?_, ?_, rfl⟩
  · rw [applyRelease_files]
  · rw [applyRelease_status]

/-- A recv-mode session whose receive directory already holds `a.txt`. -/
def recvState1 : ServerState :=
  newFileServer "recv" "inbox" [("a.txt", [1, 2, 3])]

/-- An upload of a 5-byte payload whose filename collides with the existing
`a.txt`. -/
def ureqConflict : UploadRequest :=
  { method := "POST", remoteAddr := "10.0.0.5:40002", formFileOk := true,
    filename := "a.txt", declaredSize := 5, bodyLen := 5,
    reads := [{ data := [9, 9, 9, 9, 9], readErr := some "EOF" }],
    createOk := true, createErrMsg := "" }

/-- C4 counterexample: on a name conflict the handler answers 409, yet the
peer's 5-byte payload has been read in full — not the claimed zero
bytes. -/
theorem c4_conflict_bytes_cex :
    (handleUpload recvState1 ureqConflict).httpCode = 409
    ∧ (handleUpload recvState1 ureqConflict).bytesReadFromPeer = 5
    ∧ ¬ (handleUpload recvState1 ureqConflict).bytesReadFromPeer = 0 := by
  refine ⟨rfl, rfl, by decide⟩

/-- C4 witness: the amended statement at the concrete conflicting upload. -/
theorem c4_conflict_amended_inst :
    (handleUpload recvState1 ureqConflict).httpCode = 409
    ∧ (handleUpload recvState1 ureqConflict).body
        = RespBody.conflictJSON ureqConflict.filename
            (recvState1.path ++ "/" ++ ureqConflict.filename)
    ∧ (handleUpload recvState1 ureqConflict).state.files = recvState1.files
    ∧ (handleUpload recvState1 ureqConflict).state.status = recvState1.status
    ∧ (handleUpload recvState1 ureqConflict).bytesReadFromPeer
        = ureqConflict.bodyLen :=
  c4_conflict_amended recvState1 ureqConflict rfl rfl (by decide) rfl (by decide)

/-- `applyRelease` clears the slot exactly when the caller holds it. -/
theorem applyRelease_active (s : ServerState) (ip : String) :
    (applyRelease s ip).activeClient
      = (if s.activeClient = ip then "" else s.activeClient) := by
  unfold applyRelease releaseClient
  by_cases h : s.activeClient = ip
  · simp [h]
  · simp [h]

/-- C5 amended: every POST to /api/cancel forces the phase to `cancelled`
and returns 200 with the new phase, from any caller — but the active peer
slot is released only when the caller's normalised address equals the
current holder (`releaseClient` is a no-op for any other caller), so a
cancel from a different peer leaves the holder in place. -/
theorem c5_cancel_amended (s : ServerState) (m addr : String)
    (hp : m = "POST") :
    (handleCancel s m addr).httpCode = 200
    ∧ (handleCancel s m addr).body = RespBody.cancelledJSON
    ∧ (handleCancel s m addr).state.status.status = "cancelled"
    ∧ (handleCancel s m addr).state.activeClient
        = (if s.activeClient = getClientIPStr addr then ""
           else s.activeClient) := by
  unfold handleCancel
  rw [if_neg (by simp [hp])]
  refine ⟨rfl, rfl, rfl, ?_⟩
  exact applyRelease_active s (getClientIPStr addr)

/-- A send-mode session whose admission slot is held by peer 10.0.0.1. -/
def busyState : ServerState :=
  { newFileServer "send" "demo.txt" [] with activeClient := "10.0.0.1" }

/-- C5 counterexample: a cancel POSTed by 10.0.0.2 while 10.0.0.1 holds the
slot leaves the slot un-released (still 10.0.0.1), contradicting the claim
that the active peer slot is released for any caller. -/
theorem c5_cancel_release_cex :
    (handleCancel busyState "POST" "10.0.0.2:7000").state.activeClient
      = "10.0.0.1"
    ∧ ¬ (handleCancel busyState "POST" "10.0.0.2:7000").state.activeClient
      = ""
    ∧ (handleCancel busyState "POST" "10.0.0.2:7000").state.status.status
      = "cancelled"
    ∧ (handleCancel busyState "POST" "10.0.0.2:7000").httpCode = 200 := by
  refine ⟨rfl, by decide, rfl, rfl⟩

/-- C5 witness: the amended statement at the concrete foreign-caller
cancel. -/
theorem c5_cancel_amended_inst :
    (handleCancel busyState "POST" "10.0.0.2:7000").httpCode = 200
    ∧ (handleCancel busyState "POST" "10.0.0.2:7000").body
        = RespBody.cancelledJSON
    ∧ (handleCancel busyState "POST" "10.0.0.2:7000").state.status.status
        = "cancelled"
    ∧ (handleCancel busyState "POST" "10.0.0.2:7000").state.activeClient
        = (if busyState.activeClient = getClientIPStr "10.0.0.2:7000" then ""
           else busyState.activeClient) :=
  c5_cancel_amended busyState "POST" "10.0.0.2:7000" rfl

/-- C8 amended: a file download carrying a Range header bypasses the manual
chunk loop in favour of `http.ServeContent`, and the range branch itself
leaves `transferredBytes` unchanged — but the surrounding handler still
mutates the Transfer Status for such a request: it marks the phase
`transferring` on entry and then `completed` with progress forced to 100
on exit. -/
theorem c8_range_amended (s : ServerState) (r : DownloadRequest)
    (c : List ℕ)
    (hm : s.mode = "send")
    (ha : (acquireClient s.activeClient (getClientIPStr r.remoteAddr)).1 = true)
    (hs : r.statOk = true)
    (ht : r.target = Target.file c)
    (hr : ¬ r.rangeHeader = "") :
    (handleDownload s r).usedRangeServe = true
    ∧ (handleDownload s r).state.status.transferred = s.status.transferred
    ∧ (handleDownload s r).state.status.status = "completed"
    ∧ (handleDownload s r).state.status.progress = 100 := by
  unfold handleDownload
  rw [if_neg (by simp [hm]), if_neg (by simp [ha]), if_neg (by simp [hs]), ht]
  dsimp only
  rw [if_pos (by simp [hr] : r.rangeHeader ≠ "")]
  refine ⟨rfl, ?_, ?_, ?_⟩
  · rw [applyRelease_status]
    rfl
  · rw [applyRelease_status]
    rfl
  · rw [applyRelease_status]
    rfl

/-- A download of a 3-byte file carrying a byte-range header. -/
def dreqRange : DownloadRequest :=
  { remoteAddr := "10.0.0.5:40004", rangeHeader := "bytes=0-1", statOk := true,
    target := Target.file [1, 2, 3], openOk := true, steps := [] }

/-- C8 counterexample: serving a Range request changes the Transfer Status
— the phase moves from `waiting` to `completed` and progress from 0 to 100
— contradicting the claim that phase and progressPercent are left
unchanged. -/
theorem c8_range_status_cex :
    (handleDownload sendState0 dreqRange).usedRangeServe = true
    ∧ (handleDownload sendState0 dreqRange).state.status.status = "completed"
    ∧ ¬ (handleDownload sendState0 dreqRange).state.status.status
        = sendState0.status.status
    ∧ ¬ (handleDownload sendState0 dreqRange).state.status.progress
        = sendState0.status.progress := by
  refine ⟨rfl, rfl, by decide, by decide⟩

/-- C8 witness: the amended statement at the concrete range download. -/
theorem c8_range_amended_inst :
    (handleDownload sendState0 dreqRange).usedRangeServe = true
    ∧ (handleDownload sendState0 dreqRange).state.status.transferred
        = sendState0.status.transferred
    ∧ (handleDownload sendState0 dreqRange).state.status.status = "completed"
    ∧ (handleDownload sendState0 dreqRange).state.status.progress = 100 :=
  c8_range_amended sendState0 dreqRange [1, 2, 3] rfl (by decide) rfl rfl
    (by decide)

end FileShare
